import Mathlib

/-!
# dm_proxy: the `proxy` device-mapper target (`src/proxy_target.c`)

A shallow embedding of the target's entry points (`proxy_map`,
`error_code_show`, `error_code_store`, `proxy_ctr`, `proxy_dtr`) and of the
kernel helpers they call, followed by the properties proved about them.

Conventions.
* C pointers that may be `NULL` are `Option`; dereferencing `NULL` makes the
  embedded function return `none`.
* C `int` values are `Int`; conversions to a narrower or differently signed C
  type are written out as explicit reductions modulo `2 ^ w`.
* Text buffers are lists of byte values (`List Nat`); the byte read at or past
  the end of the list is the terminating NUL.
* Calls into the kernel whose outcome the target cannot know (allocation,
  device lookup, sysfs registration) take their return value from an `Env`
  and are recorded, in call order, as a list of `Call`s.
* `kobject_lib_ok` tells which recorded `kobject_add` outcomes the kobject
  library can give after the `kobject_init` calls recorded before them.
-/

namespace DmProxy

/-! ## Kernel constants -/

/-- Errno `EINVAL` (`include/uapi/asm-generic/errno-base.h`). -/
def EINVAL : Int := 22

/-- Errno `ENOMEM` (`include/uapi/asm-generic/errno-base.h`). -/
def ENOMEM : Int := 12

/-- Errno `ERANGE` (`include/uapi/asm-generic/errno-base.h`). -/
def ERANGE : Int := 34

/-- Map disposition: the target has taken care of the bio itself
(`include/linux/device-mapper.h`). -/
def DM_MAPIO_SUBMITTED : Int := 0

/-- Map disposition: the bio was remapped and dm core submits it
(`include/linux/device-mapper.h`). -/
def DM_MAPIO_REMAPPED : Int := 1

/-! ## Data model -/

/-- A block device, identified by its own number and by the disk it lives on
(`bd_disk`, whose device kobject is the parent of the control endpoint). -/
structure block_device where
  id : Nat
  bd_disk : Nat
  deriving DecidableEq, Repr

/-- The handle `dm_get_device` hands out: `struct dm_dev`. -/
structure dm_dev where
  bdev : block_device
  deriving DecidableEq, Repr

/-- The part of `struct kobject` the target itself reads: the `ktype` pointer.
Everything else in the kobject is owned by the kobject library. -/
structure kobject where
  ktype : Option Nat
  deriving DecidableEq, Repr

/-- The record `struct proxy_target { dm_dev *dev; kobject kobj; atomic_t error_code; }`. -/
structure proxy_target where
  dev : Option dm_dev
  kobj : kobject
  error_code : Int
  deriving DecidableEq, Repr

/-- The fields of `struct dm_target` the target touches: `private` (the
per-instance context), `error` (the diagnostic string) and the table mode
that `dm_table_get_mode(ti->table)` returns. -/
structure dm_target where
  private_ : Option proxy_target
  error : Option String
  mode : Nat
  deriving DecidableEq, Repr

/-- A block request, `struct bio`: destination device, operation and
direction (`bi_opf`), completion status (`bi_status`, a `blk_status_t`),
address range (`bi_sector`, `bi_size`) and payload. -/
structure bio where
  bi_bdev : block_device
  bi_opf : Nat
  bi_status : Nat
  bi_sector : Nat
  bi_size : Nat
  payload : List Nat
  deriving DecidableEq, Repr

/-- Conversion of a C `int` to `blk_status_t`, which is
`typedef u8 __bitwise blk_status_t` (`include/linux/blk_types.h`): the value
is reduced modulo `2 ^ 8`. -/
def blk_status_of_int (v : Int) : Nat := (v % 2 ^ 8).toNat

/-- The kernel's `bio_set_dev(bio, bdev)`: points the bio at `bdev`. (Its
throttling-flag and cgroup bookkeeping is not part of the model.) -/
def bio_set_dev (b : bio) (bdev : block_device) : bio :=
  { b with bi_bdev := bdev }

/-- What one `proxy_map` call did: its return value, the bio as it left the
call, and the bios it handed to `bio_endio`, in call order. -/
structure map_result where
  ret : Int
  req : bio
  endio : List bio
  deriving DecidableEq, Repr

/-! ## Request handling -/

/-- The function `proxy_map` of `src/proxy_target.c`, lines 17-30. -/
def proxy_map (ti : dm_target) (b : bio) : Option map_result :=
  match ti.private_ with
  | none => none
  | some pt =>
    let error : Int := pt.error_code
    if error ≠ 0 then
      let b1 : bio := { b with bi_status := blk_status_of_int error }
      some { ret := DM_MAPIO_SUBMITTED, req := b1, endio := [b1] }
    else
      match pt.dev with
      | none => none
      | some d =>
        some { ret := DM_MAPIO_REMAPPED, req := bio_set_dev b d.bdev, endio := [] }

/-! ## Text conversion helpers of the kernel library -/

/-- The byte values of a string literal, for writing buffers readably. -/
def bytes (s : String) : List Nat := s.toList.map Char.toNat

/-- The byte a C string pointer points at: the head of the remaining bytes,
or the terminating NUL when none remain. -/
def peek (s : List Nat) : Nat := s.headD 0

/-- Largest `unsigned long long`. -/
def ULLONG_MAX : Nat := 2 ^ 64 - 1

/-- Reinterpretation of a 64-bit pattern as `long long` (two's complement). -/
def to_s64 (x : Nat) : Int :=
  if x % 2 ^ 64 < 2 ^ 63 then ((x % 2 ^ 64 : Nat) : Int) else ((x % 2 ^ 64 : Nat) : Int) - 2 ^ 64

/-- Conversion of a `long long` to `int`: reduction modulo `2 ^ 32` into
`[-2 ^ 31, 2 ^ 31)`. -/
def to_s32 (x : Int) : Int :=
  if x % 2 ^ 32 < 2 ^ 31 then x % 2 ^ 32 else x % 2 ^ 32 - 2 ^ 32

/-- Conversion of a `size_t` to `ssize_t` (both 64 bits wide). -/
def to_ssize (n : Nat) : Int := to_s64 n

/-- Unary minus on `unsigned long long`. -/
def neg_u64 (x : Nat) : Nat := (2 ^ 64 - x % 2 ^ 64) % 2 ^ 64

/-- The digit loop `_parse_integer` of `lib/kstrtox.c`, for base 10. The
arguments after the string are the loop variables: the accumulated value
(`unsigned long long`), the number of characters consumed, and whether the
overflow flag `KSTRTOX_OVERFLOW` has been raised. The loop stops at the first
byte that is not a decimal digit (a hexadecimal letter has a value of at least
the base and stops it as well); the overflow test is the kernel's:
only when one of the four top bits of the accumulator is set, compare it with
`(ULLONG_MAX - val) / base`. -/
def _parse_integer : List Nat → Nat → Nat → Bool → Nat × Nat × Bool
  | [], res, rv, ovf => (res, rv, ovf)
  | c :: s, res, rv, ovf =>
    if 48 ≤ c ∧ c ≤ 57 then
      let val := c - 48
      let ovf1 := ovf || (decide (res / 2 ^ 60 % 16 ≠ 0) && decide (res > (ULLONG_MAX - val) / 10))
      _parse_integer s ((res * 10 + val) % 2 ^ 64) (rv + 1) ovf1
    else (res, rv, ovf)

/-- The function `_kstrtoull` of `lib/kstrtox.c`, for base 10: digits, then an
optional single newline, then the end of the string. -/
def _kstrtoull (s : List Nat) : Except Int Nat :=
  match _parse_integer s 0 0 false with
  | (res, rv, ovf) =>
    if ovf then .error (-ERANGE)
    else if rv = 0 then .error (-EINVAL)
    else
      let s1 := s.drop rv
      let s2 := if peek s1 = 10 then s1.tail else s1
      if peek s2 ≠ 0 then .error (-EINVAL) else .ok res

/-- The function `kstrtoull` of `lib/kstrtox.c`: skips one leading `+`. -/
def kstrtoull (s : List Nat) : Except Int Nat :=
  if peek s = 43 then _kstrtoull s.tail else _kstrtoull s

/-- The function `kstrtoll` of `lib/kstrtox.c`: handles one leading `-` and
checks that the magnitude fits `long long`. -/
def kstrtoll (s : List Nat) : Except Int Int :=
  if peek s = 45 then
    match _kstrtoull s.tail with
    | .error e => .error e
    | .ok tmp =>
      if to_s64 (neg_u64 tmp) > 0 then .error (-ERANGE) else .ok (to_s64 (neg_u64 tmp))
  else
    match kstrtoull s with
    | .error e => .error e
    | .ok tmp =>
      if to_s64 tmp < 0 then .error (-ERANGE) else .ok (to_s64 tmp)

/-- The function `kstrtoint(s, 10, &res)` of `lib/kstrtox.c`: `.ok res` when it
returns 0, `.error e` when it returns the negative errno `e`. -/
def kstrtoint (s : List Nat) : Except Int Int :=
  match kstrtoll s with
  | .error e => .error e
  | .ok tmp => if tmp ≠ to_s32 tmp then .error (-ERANGE) else .ok tmp

/-- Decimal digits of a natural number, least significant first, as ASCII
bytes; the first argument bounds the number of digits produced. -/
def digits_rev : Nat → Nat → List Nat
  | 0, _ => []
  | fuel + 1, n => if n < 10 then [48 + n] else (48 + n % 10) :: digits_rev fuel (n / 10)

/-- What the conversion `%u` prints: the decimal digits, most significant first. -/
def fmt_u (n : Nat) : List Nat := (digits_rev (n + 1) n).reverse

/-- What the conversion `%d` prints: a `-` for a negative value, then the
digits of the magnitude. -/
def fmt_d (v : Int) : List Nat :=
  if v < 0 then 45 :: fmt_u v.natAbs else fmt_u v.natAbs

/-- The value of a digit string read most significant digit first, starting
from the accumulator `acc`. -/
def horner (acc : Nat) (ds : List Nat) : Nat :=
  ds.foldl (fun a c => a * 10 + (c - 48)) acc

/-- A byte is an ASCII decimal digit. -/
def is_digit (c : Nat) : Prop := 48 ≤ c ∧ c ≤ 57

/-! ## The control endpoint -/

/-- The function `error_code_show` of `src/proxy_target.c`, lines 32-36: the
value `sprintf` returns and the bytes it wrote to `buf` (before the NUL). -/
def error_code_show (pt : proxy_target) : Int × List Nat :=
  let out := fmt_d pt.error_code ++ [10]
  ((out.length : Int), out)

/-- The function `error_code_store` of `src/proxy_target.c`, lines 38-48: the
value returned and the record afterwards. -/
def error_code_store (pt : proxy_target) (buf : List Nat) (count : Nat) : Int × proxy_target :=
  match kstrtoint buf with
  | .error _ => (-EINVAL, pt)
  | .ok error_code => (to_ssize count, { pt with error_code := error_code })

/-! ## Construction and destruction -/

/-- The outcomes of the kernel calls `proxy_ctr` makes: whether `kzalloc`
returns memory, the return value of `dm_get_device` and the handle it stores
when it returns 0, and the return values of `kobject_add` and
`sysfs_create_file`. -/
structure Env where
  kzalloc_ok : Bool
  dm_get_device_ret : Int
  dm_get_device_dev : dm_dev
  kobject_add_ret : Int
  sysfs_create_file_ret : Int
  deriving DecidableEq, Repr

/-- One kernel call made by `proxy_ctr` or `proxy_dtr`, with the arguments the
target chose and, for a call that can fail, its outcome. -/
inductive Call where
  | kzalloc (ok : Bool)
  | dm_get_device (path : String) (mode : Nat) (ret : Int)
  | kobject_init (ktype : Option Nat)
  | kobject_add (parent : Nat) (name : String) (ret : Int)
  | sysfs_create_file (attr : String) (ret : Int)
  | sysfs_remove_file (attr : String)
  | kobject_put
  | dm_put_device (dev : Option dm_dev)
  | kfree
  deriving DecidableEq, Repr

/-- What one `proxy_ctr` call did: its return value, the `dm_target`
afterwards, and the kernel calls made, in call order. -/
structure ctr_result where
  ret : Int
  ti : dm_target
  calls : List Call
  deriving DecidableEq, Repr

/-- The function `proxy_ctr` of `src/proxy_target.c`, lines 52-97. `argv[0]` is
the head of `argv`. The record starts out zeroed (`kzalloc`): `dev` and
`kobj.ktype` are `NULL`, `error_code` is 0. -/
def proxy_ctr (env : Env) (ti : dm_target) (argc : Nat) (argv : List String) : ctr_result :=
  if argc ≠ 1 then
    { ret := -EINVAL
      ti := { ti with error := some "Invalid argument count" }
      calls := [] }
  else if env.kzalloc_ok = false then
    { ret := -ENOMEM
      ti := { ti with error := some "Out of memory" }
      calls := [.kzalloc false] }
  else
    let pt0 : proxy_target := { dev := none, kobj := { ktype := none }, error_code := 0 }
    let c1 : List Call := [.kzalloc true]
    let ret := env.dm_get_device_ret
    let c2 := c1 ++ [.dm_get_device (argv.headD "") ti.mode ret]
    if ret ≠ 0 then
      { ret := ret
        ti := { ti with error := some "Device lookup failed" }
        calls := c2 ++ [.kfree] }
    else
      let pt1 : proxy_target := { pt0 with dev := some env.dm_get_device_dev }
      let pt2 : proxy_target := { pt1 with error_code := 0 }
      let c3 := c2 ++ [.kobject_init pt2.kobj.ktype]
      let ret := env.kobject_add_ret
      let c4 := c3 ++ [.kobject_add env.dm_get_device_dev.bdev.bd_disk "proxy_target" ret]
      if ret ≠ 0 then
        { ret := ret
          ti := { ti with error := some "Failed to create sysfs entry" }
          calls := c4 ++ [.dm_put_device pt2.dev, .kfree] }
      else
        let ret := env.sysfs_create_file_ret
        let c5 := c4 ++ [.sysfs_create_file "error_code" ret]
        if ret ≠ 0 then
          { ret := ret
            ti := { ti with error := some "Failed to create sysfs file" }
            calls := c5 ++ [.kobject_put, .dm_put_device pt2.dev, .kfree] }
        else
          { ret := 0
            ti := { ti with private_ := some pt2 }
            calls := c5 }

/-- The four things a target owns. -/
inductive Resource where
  | record
  | device
  | endpoint
  | attribute
  deriving DecidableEq, Repr

/-- The resource a call acquires, if it is an acquiring call that succeeded. -/
def Call.acquires : Call → Option Resource
  | .kzalloc ok => if ok then some .record else none
  | .dm_get_device _ _ r => if r = 0 then some .device else none
  | .kobject_add _ _ r => if r = 0 then some .endpoint else none
  | .sysfs_create_file _ r => if r = 0 then some .attribute else none
  | _ => none

/-- The resources acquired by a sequence of calls, in order of acquisition. -/
def acquired (cs : List Call) : List Resource := cs.filterMap Call.acquires

/-- A sample underlying device: block device 7 on disk 3. -/
def sample_dev : dm_dev := { bdev := { id := 7, bd_disk := 3 } }

/-- A sample request: a write of 4096 bytes at sector 128, issued to the
mapped device 9, not yet completed. -/
def sample_bio : bio :=
  { bi_bdev := { id := 9, bd_disk := 5 }, bi_opf := 1, bi_status := 0,
    bi_sector := 128, bi_size := 4096, payload := [1, 2, 3] }

/-- A constructed record bound to `sample_dev` holding the given code. -/
def sample_pt (code : Int) : proxy_target :=
  { dev := some sample_dev, kobj := { ktype := none }, error_code := code }

/-- A `dm_target` whose context is `sample_pt code`. -/
def sample_ti (code : Int) : dm_target :=
  { private_ := some (sample_pt code), error := none, mode := 3 }

/-- A `dm_target` before construction: no context, no diagnostic. -/
def fresh_ti : dm_target := { private_ := none, error := none, mode := 3 }

/-- An environment as a kernel provides it to `proxy_ctr`: allocation and
device lookup succeed, and `kobject_add`, called on the kobject that
`kobject_init` left uninitialised for want of a `ktype`, returns `-EINVAL`.
(`sysfs_create_file` is then never reached; its entry is immaterial.) -/
def kernel_env : Env :=
  { kzalloc_ok := true, dm_get_device_ret := 0, dm_get_device_dev := sample_dev,
    kobject_add_ret := -EINVAL, sysfs_create_file_ret := 0 }

/-- With a nonzero code `E` stored, `proxy_map` hands the bio to `bio_endio`
exactly once, with `bi_status` set to `E` converted to `blk_status_t`, leaves
its device and every other field alone, and returns `DM_MAPIO_SUBMITTED`. -/
theorem proxy_map_fault (ti : dm_target) (pt : proxy_target) (b : bio)
    (hp : ti.private_ = some pt) (hE : pt.error_code ≠ 0) :
    proxy_map ti b =
      some { ret := DM_MAPIO_SUBMITTED
             req := { b with bi_status := blk_status_of_int pt.error_code }
             endio := [{ b with bi_status := blk_status_of_int pt.error_code }] } := by
  simp [proxy_map, hp, hE]

/-- For a code in the range of `blk_status_t` the conversion is the identity. -/
theorem blk_status_of_int_small (E : Int) (h0 : 0 ≤ E) (h1 : E < 256) :
    (blk_status_of_int E : Int) = E := by
  unfold blk_status_of_int
  have h : E % 2 ^ 8 = E := Int.emod_eq_of_lt h0 (by norm_num; exact h1)
  rw [h]
  exact Int.toNat_of_nonneg h0

/-- C1, evaluated at the code 256: writing the line `256` to the control
endpoint is accepted and stores 256; `proxy_map` then completes the request
itself, exactly once, returns `DM_MAPIO_SUBMITTED` and leaves the request's
device alone, but the terminal status it sets is 0, the success status, not
256: the `int` is cut down to the 8 bits of `blk_status_t`. -/
theorem proxy_map_code_256_status_zero (dev : Option dm_dev) (k : kobject)
    (e : Option String) (m : Nat) (b : bio) :
    error_code_store { dev := dev, kobj := k, error_code := 0 } (bytes "256\n") 4
        = (4, { dev := dev, kobj := k, error_code := 256 }) ∧
    ∃ r, proxy_map { private_ := some { dev := dev, kobj := k, error_code := 256 },
                     error := e, mode := m } b = some r ∧
      r.ret = DM_MAPIO_SUBMITTED ∧ r.endio = [r.req] ∧ r.req.bi_bdev = b.bi_bdev ∧
      r.req.bi_status = 0 ∧ (r.req.bi_status : Int) ≠ 256 := by
  have hk : kstrtoint (bytes "256\n") = .ok 256 := by rfl
  refine ⟨?_, { ret := DM_MAPIO_SUBMITTED, req := { b with bi_status := 0 },
                endio := [{ b with bi_status := 0 }] }, ?_, rfl, rfl, rfl, rfl, by simp⟩
  · simp only [error_code_store, hk]
    rfl
  · simp [proxy_map, blk_status_of_int]

/-- C2: with code 0 stored, `proxy_map` points the request at the target's
underlying device, returns `DM_MAPIO_REMAPPED`, calls `bio_endio` not at all,
and leaves status, address range, direction and payload as they were. -/
theorem proxy_map_pass_through (ti : dm_target) (pt : proxy_target) (d : dm_dev) (b : bio)
    (hp : ti.private_ = some pt) (hd : pt.dev = some d) (h0 : pt.error_code = 0) :
    ∃ r, proxy_map ti b = some r ∧
      r.ret = DM_MAPIO_REMAPPED ∧ r.endio = [] ∧
      r.req.bi_bdev = d.bdev ∧
      r.req.bi_status = b.bi_status ∧
      r.req.bi_sector = b.bi_sector ∧ r.req.bi_size = b.bi_size ∧
      r.req.bi_opf = b.bi_opf ∧ r.req.payload = b.payload := by
  refine ⟨{ ret := DM_MAPIO_REMAPPED, req := bio_set_dev b d.bdev, endio := [] }, ?_, ?_⟩
  · simp [proxy_map, hp, hd, h0]
  · simp [bio_set_dev]

/-- Witness for C2: the sample request on the sample target with code 0. -/
theorem proxy_map_pass_through_witness :
    ∃ r, proxy_map (sample_ti 0) sample_bio = some r ∧
      r.ret = DM_MAPIO_REMAPPED ∧ r.endio = [] ∧
      r.req.bi_bdev = sample_dev.bdev ∧
      r.req.bi_status = sample_bio.bi_status ∧
      r.req.bi_sector = sample_bio.bi_sector ∧ r.req.bi_size = sample_bio.bi_size ∧
      r.req.bi_opf = sample_bio.bi_opf ∧ r.req.payload = sample_bio.payload :=
  proxy_map_pass_through (sample_ti 0) (sample_pt 0) sample_dev sample_bio rfl rfl rfl

/-- C3: on a constructed target, whatever code is stored, one `proxy_map` call
either completes the request itself exactly once, returns
`DM_MAPIO_SUBMITTED` and leaves the request's device alone, or completes
nothing, returns `DM_MAPIO_REMAPPED` and has pointed the request at the
underlying device; exactly one of the two happens, and the return value is
`DM_MAPIO_SUBMITTED` exactly when the call completed the request. -/
theorem proxy_map_exactly_one (ti : dm_target) (pt : proxy_target) (d : dm_dev) (b : bio)
    (hp : ti.private_ = some pt) (hd : pt.dev = some d) :
    ∃ r, proxy_map ti b = some r ∧
      Xor' (r.endio.length = 1 ∧ r.endio = [r.req] ∧ r.ret = DM_MAPIO_SUBMITTED ∧
              r.req.bi_bdev = b.bi_bdev)
           (r.endio.length = 0 ∧ r.ret = DM_MAPIO_REMAPPED ∧ r.req.bi_bdev = d.bdev) ∧
      (r.ret = DM_MAPIO_SUBMITTED ↔ r.endio.length = 1) ∧
      (r.ret = DM_MAPIO_REMAPPED ↔ r.endio.length = 0) := by
  by_cases hE : pt.error_code = 0
  · refine ⟨{ ret := DM_MAPIO_REMAPPED, req := bio_set_dev b d.bdev, endio := [] }, ?_, ?_⟩
    · simp [proxy_map, hp, hd, hE]
    · simp [Xor', bio_set_dev, DM_MAPIO_REMAPPED, DM_MAPIO_SUBMITTED]
  · refine ⟨_, proxy_map_fault ti pt b hp hE, ?_⟩
    simp [Xor', DM_MAPIO_REMAPPED, DM_MAPIO_SUBMITTED]

/-- Witness for C3: the sample request on the sample target with code 5. -/
theorem proxy_map_exactly_one_witness :
    ∃ r, proxy_map (sample_ti 5) sample_bio = some r ∧
      Xor' (r.endio.length = 1 ∧ r.endio = [r.req] ∧ r.ret = DM_MAPIO_SUBMITTED ∧
              r.req.bi_bdev = sample_bio.bi_bdev)
           (r.endio.length = 0 ∧ r.ret = DM_MAPIO_REMAPPED ∧ r.req.bi_bdev = sample_dev.bdev) ∧
      (r.ret = DM_MAPIO_SUBMITTED ↔ r.endio.length = 1) ∧
      (r.ret = DM_MAPIO_REMAPPED ↔ r.endio.length = 0) :=
  proxy_map_exactly_one (sample_ti 5) (sample_pt 5) sample_dev sample_bio rfl rfl

/-! ## The text helpers on concrete inputs -/

/-- The conversion `%d` on a few values, against the expected text. -/
theorem fmt_d_examples :
    fmt_d 0 = bytes "0" ∧ fmt_d 7 = bytes "7" ∧ fmt_d (-120) = bytes "-120" ∧
    fmt_d 2147483647 = bytes "2147483647" ∧ fmt_d (-2147483648) = bytes "-2147483648" := by
  decide

/-- The parser `kstrtoint` on a few buffers: a sign and one final newline are
accepted, anything else around the digits is not, and values outside `int`
are out of range. -/
theorem kstrtoint_examples :
    kstrtoint (bytes "12") = .ok 12 ∧ kstrtoint (bytes "12\n") = .ok 12 ∧
    kstrtoint (bytes "+12") = .ok 12 ∧ kstrtoint (bytes "-12\n") = .ok (-12) ∧
    kstrtoint (bytes "007") = .ok 7 ∧ kstrtoint [53, 0, 65] = .ok 5 ∧
    kstrtoint (bytes "") = .error (-EINVAL) ∧ kstrtoint (bytes "\n") = .error (-EINVAL) ∧
    kstrtoint (bytes "-") = .error (-EINVAL) ∧ kstrtoint (bytes "12 ") = .error (-EINVAL) ∧
    kstrtoint (bytes " 12") = .error (-EINVAL) ∧ kstrtoint (bytes "12\n\n") = .error (-EINVAL) ∧
    kstrtoint (bytes "0x10") = .error (-EINVAL) ∧ kstrtoint (bytes "1f") = .error (-EINVAL) ∧
    kstrtoint (bytes "2147483647") = .ok 2147483647 ∧
    kstrtoint (bytes "2147483648") = .error (-ERANGE) ∧
    kstrtoint (bytes "-2147483648") = .ok (-2147483648) ∧
    kstrtoint (bytes "-2147483649") = .error (-ERANGE) ∧
    kstrtoint (bytes "18446744073709551616") = .error (-ERANGE) := by
  refine ⟨?_, ?_, ?_, ?_, ?_, ?_, ?_, ?_, ?_, ?_, ?_, ?_, ?_, ?_, ?_, ?_, ?_, ?_, ?_⟩ <;> rfl

/-- Every error `_kstrtoull` reports is a negative errno. -/
theorem _kstrtoull_error_neg (s : List Nat) (e : Int) (h : _kstrtoull s = .error e) : e < 0 := by
  unfold _kstrtoull at h
  split at h
  simp only [] at h
  split_ifs at h
  all_goals first
    | (have he := Except.error.inj h
       unfold ERANGE at he
       omega)
    | (have he := Except.error.inj h
       unfold EINVAL at he
       omega)

/-- Every error `kstrtoint` reports is a negative errno, so the test
`kstrtoint(...) < 0` of `error_code_store` is the test for an error. -/
theorem kstrtoint_error_neg (s : List Nat) (e : Int) (h : kstrtoint s = .error e) : e < 0 := by
  unfold kstrtoint at h
  split at h
  · rename_i e1 h1
    have he : e1 = e := by simpa using h
    subst he
    unfold kstrtoll at h1
    split_ifs at h1
    · split at h1
      · rename_i e2 h2
        have he : e2 = e1 := by simpa using h1
        subst he
        exact _kstrtoull_error_neg _ _ h2
      · split_ifs at h1
        · simp [ERANGE] at h1; omega
    · split at h1
      · rename_i e2 h2
        have he : e2 = e1 := by simpa using h1
        subst he
        unfold kstrtoull at h2
        split_ifs at h2 <;> exact _kstrtoull_error_neg _ _ h2
      · split_ifs at h1
        · simp [ERANGE] at h1; omega
  · split_ifs at h
    · simp [ERANGE] at h; omega

/-! ## The control endpoint: writes -/

/-- C5: when `kstrtoint` fails on the buffer, with whatever errno,
`error_code_store` returns `-EINVAL` and the record, stored code included, is
exactly what it was. -/
theorem error_code_store_rejects (pt : proxy_target) (buf : List Nat) (count : Nat) (e : Int)
    (h : kstrtoint buf = .error e) :
    error_code_store pt buf count = (-EINVAL, pt) ∧
      (error_code_store pt buf count).2.error_code = pt.error_code := by
  simp [error_code_store, h]

/-- Witness for C5: the line `abc` written over the stored code 5. -/
theorem error_code_store_rejects_witness :
    error_code_store (sample_pt 5) (bytes "abc\n") 4 = (-EINVAL, sample_pt 5) ∧
      (error_code_store (sample_pt 5) (bytes "abc\n") 4).2.error_code = (sample_pt 5).error_code :=
  error_code_store_rejects (sample_pt 5) (bytes "abc\n") 4 (-EINVAL) (by rfl)

/-- C9: when `kstrtoint` reads the integer `n` from the buffer,
`error_code_store` stores `n`, changes nothing else in the record, and
returns `count`, whatever code was stored before (`count` is at most
`SSIZE_MAX`, as the length of every buffer is). -/
theorem error_code_store_accepts (pt : proxy_target) (buf : List Nat) (count : Nat) (n : Int)
    (h : kstrtoint buf = .ok n) (hc : count < 2 ^ 63) :
    error_code_store pt buf count = ((count : Int), { pt with error_code := n }) := by
  have hs : to_ssize count = (count : Int) := by
    unfold to_ssize to_s64
    have hm : count % 2 ^ 64 = count := Nat.mod_eq_of_lt (by omega)
    rw [hm, if_pos hc]
  simp [error_code_store, h, hs]

/-- Witness for C9: the line `-42` (four bytes) written over the code 5. -/
theorem error_code_store_accepts_witness :
    error_code_store (sample_pt 5) (bytes "-42\n") 4
      = (((4 : Nat) : Int), { sample_pt 5 with error_code := -42 }) :=
  error_code_store_accepts (sample_pt 5) (bytes "-42\n") 4 (-42) (by rfl) (by norm_num)

/-! ## Construction and destruction: properties -/

/-- C6: with an argument count other than 1, `proxy_ctr` returns `-EINVAL`
having made no kernel call at all (nothing allocated, no device opened, no
sysfs object created) and having left `ti->private` as it was; only the
diagnostic string is set. -/
theorem proxy_ctr_bad_argc (env : Env) (ti : dm_target) (argc : Nat) (argv : List String)
    (h : argc ≠ 1) :
    proxy_ctr env ti argc argv =
      { ret := -EINVAL
        ti := { ti with error := some "Invalid argument count" }
        calls := [] } ∧
    (proxy_ctr env ti argc argv).ti.private_ = ti.private_ ∧
    acquired (proxy_ctr env ti argc argv).calls = [] := by
  simp [proxy_ctr, h, acquired]

/-- Witness for C6: two arguments, on a target not yet constructed. -/
theorem proxy_ctr_bad_argc_witness :
    proxy_ctr kernel_env fresh_ti 2 ["/dev/sdb", "/dev/sdc"] =
      { ret := -EINVAL
        ti := { fresh_ti with error := some "Invalid argument count" }
        calls := [] } ∧
    (proxy_ctr kernel_env fresh_ti 2 ["/dev/sdb", "/dev/sdc"]).ti.private_ = fresh_ti.private_ ∧
    acquired (proxy_ctr kernel_env fresh_ti 2 ["/dev/sdb", "/dev/sdc"]).calls = [] :=
  proxy_ctr_bad_argc kernel_env fresh_ti 2 ["/dev/sdb", "/dev/sdc"] (by decide)

theorem horner_cons (acc c : Nat) (ds : List Nat) :
    horner acc (c :: ds) = horner (acc * 10 + (c - 48)) ds := rfl

theorem le_horner (ds : List Nat) : ∀ acc, acc ≤ horner acc ds := by
  induction ds with
  | nil => intro acc; exact le_refl _
  | cons c ds ih =>
    intro acc
    rw [horner_cons]
    exact le_trans (by omega) (ih _)

/-- The digit loop reads a run of digits whose value stays below `2 ^ 60`
without raising the overflow flag, and stops at what follows. -/
theorem parse_integer_digits (rest : List Nat) (hrest : ¬ is_digit (peek rest) ) :
    ∀ (ds : List Nat) (res rv : Nat), (∀ c ∈ ds, is_digit c) → horner res ds < 2 ^ 60 →
      _parse_integer (ds ++ rest) res rv false = (horner res ds, rv + ds.length, false) := by
  intro ds
  induction ds with
  | nil =>
    intro res rv _ _
    cases rest with
    | nil => simp [_parse_integer, horner]
    | cons r rs =>
      have hr : ¬ (48 ≤ r ∧ r ≤ 57) := by simpa [peek, is_digit] using hrest
      simp [_parse_integer, horner, hr]
  | cons c ds ih =>
    intro res rv hds hval
    have hc : 48 ≤ c ∧ c ≤ 57 := hds c (List.mem_cons_self _ _)
    rw [horner_cons] at hval
    have h1 : res * 10 + (c - 48) < 2 ^ 60 := lt_of_le_of_lt (le_horner ds _) hval
    have h2 : res / 2 ^ 60 % 16 = 0 := by
      have : res / 2 ^ 60 = 0 := Nat.div_eq_of_lt (by omega)
      rw [this]
    have h3 : (res * 10 + (c - 48)) % 2 ^ 64 = res * 10 + (c - 48) :=
      Nat.mod_eq_of_lt (by omega)
    have ih1 := ih (res * 10 + (c - 48)) (rv + 1)
      (fun x hx => hds x (List.mem_cons_of_mem _ hx)) hval
    simp only [List.cons_append, _parse_integer, hc, and_self, if_true, h2, h3]
    simp only [ne_eq, not_true_eq_false, decide_False, Bool.false_and, Bool.or_false,
      List.append_eq]
    rw [ih1, horner_cons, List.length_cons]
    congr 2
    omega

theorem digits_rev_length_le : ∀ (fuel n : Nat), (digits_rev fuel n).length ≤ fuel := by
  intro fuel
  induction fuel with
  | zero => intro n; simp [digits_rev]
  | succ f ih =>
    intro n
    unfold digits_rev
    split_ifs
    · simp
    · have := ih (n / 10)
      simp only [List.length_cons]
      omega

theorem digits_rev_ne_nil (fuel n : Nat) : digits_rev (fuel + 1) n ≠ [] := by
  unfold digits_rev
  split_ifs <;> simp

theorem digits_rev_is_digit : ∀ (fuel n : Nat), ∀ c ∈ digits_rev fuel n, is_digit c := by
  intro fuel
  induction fuel with
  | zero => intro n c hc; simp [digits_rev] at hc
  | succ f ih =>
    intro n c hc
    unfold digits_rev at hc
    split_ifs at hc with hn
    · have : c = 48 + n := by simpa using hc
      unfold is_digit
      omega
    · rcases List.mem_cons.mp hc with h | h
      · unfold is_digit
        omega
      · exact ih _ c h

/-- With enough fuel the digits produced, read back least significant first,
give the number. -/
theorem digits_rev_value : ∀ (fuel n : Nat), n < fuel →
    (digits_rev fuel n).foldr (fun c a => a * 10 + (c - 48)) 0 = n := by
  intro fuel
  induction fuel with
  | zero => intro n hn; omega
  | succ f ih =>
    intro n hn
    unfold digits_rev
    split_ifs with h10
    · simp
    · have := ih (n / 10) (by omega)
      simp only [List.foldr_cons, this]
      omega

theorem fmt_u_is_digit (n : Nat) : ∀ c ∈ fmt_u n, is_digit c := by
  intro c hc
  exact digits_rev_is_digit (n + 1) n c (by simpa [fmt_u] using hc)

theorem fmt_u_ne_nil (n : Nat) : fmt_u n ≠ [] := by
  simp [fmt_u, digits_rev_ne_nil]

theorem fmt_u_length_le (n : Nat) : (fmt_u n).length ≤ n + 1 := by
  simpa [fmt_u] using digits_rev_length_le (n + 1) n

theorem horner_fmt_u (n : Nat) : horner 0 (fmt_u n) = n := by
  unfold horner fmt_u
  rw [List.foldl_reverse]
  exact digits_rev_value (n + 1) n (by omega)

/-- The first byte of a printed number is a digit. -/
theorem peek_fmt_u_is_digit (n : Nat) (suffix : List Nat) : is_digit (peek (fmt_u n ++ suffix)) := by
  have hne := fmt_u_ne_nil n
  have hd := fmt_u_is_digit n
  cases h : fmt_u n with
  | nil => exact absurd h hne
  | cons c cs =>
    rw [h] at hd
    simpa [peek] using hd c (List.mem_cons_self _ _)

/-- The innermost parser reads back a printed number below `2 ^ 60`, alone or
followed by one newline. -/
theorem _kstrtoull_fmt_u (n : Nat) (hn : n < 2 ^ 60) (nl : Bool) :
    _kstrtoull (fmt_u n ++ (if nl then [10] else [])) = .ok n := by
  have hrest : ¬ is_digit (peek (if nl then [10] else [])) := by
    cases nl <;> simp [peek, is_digit]
  have hp := parse_integer_digits (if nl then [10] else []) hrest (fmt_u n) 0 0
    (fmt_u_is_digit n) (by rw [horner_fmt_u]; exact hn)
  have hlen : (fmt_u n).length ≠ 0 := by
    simpa [List.length_eq_zero] using fmt_u_ne_nil n
  unfold _kstrtoull
  rw [hp, horner_fmt_u]
  simp only [zero_add, Bool.false_eq_true, if_false, hlen, List.drop_left]
  cases nl <;> simp [peek]

/-- The parser `kstrtoint` reads back every `int` printed by `%d`, alone or
followed by one newline. -/
theorem kstrtoint_fmt_d (v : Int) (hlo : -2 ^ 31 ≤ v) (hhi : v < 2 ^ 31) (nl : Bool) :
    kstrtoint (fmt_d v ++ (if nl then [10] else [])) = .ok v := by
  have hs32 : to_s32 v = v := by
    unfold to_s32
    by_cases h0 : 0 ≤ v
    · have hm : v % 2 ^ 32 = v := Int.emod_eq_of_lt h0 (by omega)
      rw [hm, if_pos (by omega)]
    · have hm : v % 2 ^ 32 = v + 2 ^ 32 := by
        have h1 : (v + 2 ^ 32) % 2 ^ 32 = v + 2 ^ 32 :=
          Int.emod_eq_of_lt (by omega) (by omega)
        rw [← h1]
        simp
      rw [hm, if_neg (by omega)]
      omega
  have hll : kstrtoll (fmt_d v ++ (if nl then [10] else [])) = .ok v := by
    by_cases hneg : v < 0
    · have hm : v.natAbs < 2 ^ 60 := by omega
      have hm0 : 0 < v.natAbs := by omega
      have hk := _kstrtoull_fmt_u v.natAbs hm nl
      have hneg64 : neg_u64 v.natAbs = 2 ^ 64 - v.natAbs := by
        unfold neg_u64
        rw [Nat.mod_eq_of_lt (by omega : v.natAbs < 2 ^ 64)]
        exact Nat.mod_eq_of_lt (by omega)
      have hval : to_s64 (neg_u64 v.natAbs) = v := by
        unfold to_s64
        rw [hneg64, Nat.mod_eq_of_lt (by omega : 2 ^ 64 - v.natAbs < 2 ^ 64),
          if_neg (by omega)]
        omega
      unfold kstrtoll
      simp only [fmt_d, hneg, if_true, List.cons_append, peek, List.headD_cons, List.tail_cons,
        hk, hval]
      rw [if_neg (by omega)]
    · have hm : v.natAbs < 2 ^ 60 := by omega
      have hk := _kstrtoull_fmt_u v.natAbs hm nl
      have hd := peek_fmt_u_is_digit v.natAbs (if nl then [10] else [])
      have h45 : peek (fmt_u v.natAbs ++ (if nl then [10] else [])) ≠ 45 := by
        unfold is_digit at hd
        omega
      have h43 : peek (fmt_u v.natAbs ++ (if nl then [10] else [])) ≠ 43 := by
        unfold is_digit at hd
        omega
      have hval : to_s64 v.natAbs = v := by
        unfold to_s64
        rw [Nat.mod_eq_of_lt (by omega : v.natAbs < 2 ^ 64), if_pos (by omega)]
        omega
      unfold kstrtoll kstrtoull
      simp only [fmt_d, hneg, if_false, h45, h43, hk, hval]
  unfold kstrtoint
  rw [hll]
  simp [hs32]

theorem fmt_d_length_lt (v : Int) (hlo : -2 ^ 31 ≤ v) (hhi : v < 2 ^ 31) (nl : Bool) :
    (fmt_d v ++ (if nl then [10] else [])).length < 2 ^ 63 := by
  have h := fmt_u_length_le v.natAbs
  have hd : (fmt_d v).length ≤ (fmt_u v.natAbs).length + 1 := by
    unfold fmt_d
    by_cases hneg : v < 0
    · rw [if_pos hneg, List.length_cons]
    · rw [if_neg hneg]
      omega
  rw [List.length_append]
  cases nl
  · simp only [Bool.false_eq_true, if_false, List.length_nil]
    omega
  · simp only [if_true, List.length_singleton]
    omega

/-- C4, as amended: for every integer `v` in the range of `int`, writing the
decimal text of `v` (as `%d` prints it, with or without a final newline) with
`error_code_store`, over whatever code was stored, is accepted, consumes the
whole text and stores `v`; `error_code_show` then writes the decimal text of
`v` followed by one newline and returns its length. -/
theorem error_code_roundtrip (pt : proxy_target) (v : Int) (nl : Bool)
    (hlo : -2 ^ 31 ≤ v) (hhi : v < 2 ^ 31) :
    error_code_store pt (fmt_d v ++ (if nl then [10] else []))
        (fmt_d v ++ (if nl then [10] else [])).length
      = (((fmt_d v ++ (if nl then [10] else [])).length : Int), { pt with error_code := v }) ∧
    error_code_show (error_code_store pt (fmt_d v ++ (if nl then [10] else []))
        (fmt_d v ++ (if nl then [10] else [])).length).2
      = ((((fmt_d v).length + 1 : Nat) : Int), fmt_d v ++ [10]) := by
  have hk := kstrtoint_fmt_d v hlo hhi nl
  have hl := fmt_d_length_lt v hlo hhi nl
  have hs : to_ssize (fmt_d v ++ (if nl then [10] else [])).length
      = ((fmt_d v ++ (if nl then [10] else [])).length : Int) := by
    unfold to_ssize to_s64
    rw [Nat.mod_eq_of_lt (by omega), if_pos hl]
  have hst : error_code_store pt (fmt_d v ++ (if nl then [10] else []))
        (fmt_d v ++ (if nl then [10] else [])).length
      = (((fmt_d v ++ (if nl then [10] else [])).length : Int), { pt with error_code := v }) := by
    simp only [error_code_store, hk, hs]
  refine ⟨hst, ?_⟩
  rw [hst]
  simp [error_code_show]

/-- Witness for C4 as amended: the smallest `int`, written with a final
newline over the stored code 5, reads back as itself. -/
theorem error_code_roundtrip_witness :
    fmt_d (-2147483648) = bytes "-2147483648" ∧
    error_code_store (sample_pt 5) (fmt_d (-2147483648) ++ (if true then [10] else []))
        (fmt_d (-2147483648) ++ (if true then [10] else [])).length
      = (((fmt_d (-2147483648) ++ (if true then [10] else [])).length : Int),
         { sample_pt 5 with error_code := -2147483648 }) ∧
    error_code_show (error_code_store (sample_pt 5)
        (fmt_d (-2147483648) ++ (if true then [10] else []))
        (fmt_d (-2147483648) ++ (if true then [10] else [])).length).2
      = ((((fmt_d (-2147483648)).length + 1 : Nat) : Int), fmt_d (-2147483648) ++ [10]) :=
  ⟨by decide, error_code_roundtrip (sample_pt 5) (-2147483648) true (by decide) (by decide)⟩

/-- C4 as stated fails outside the range of `int`: the decimal text of
`2 ^ 31`, written over the stored code 5, is rejected with `-EINVAL`; the
stored code stays 5 and reading it back yields `5` and a newline, not
`2147483648`. -/
theorem error_code_roundtrip_fails_at_2_pow_31 :
    fmt_d 2147483648 = bytes "2147483648" ∧
    error_code_store (sample_pt 5) (fmt_d 2147483648) (fmt_d 2147483648).length
      = (-EINVAL, sample_pt 5) ∧
    (error_code_store (sample_pt 5) (fmt_d 2147483648)
        (fmt_d 2147483648).length).2.error_code ≠ 2147483648 ∧
    error_code_show (error_code_store (sample_pt 5) (fmt_d 2147483648)
        (fmt_d 2147483648).length).2 = (2, bytes "5\n") ∧
    (error_code_show (error_code_store (sample_pt 5) (fmt_d 2147483648)
        (fmt_d 2147483648).length).2).2 ≠ fmt_d 2147483648 ++ [10] := by
  decide

end DmProxy
